import Mathlib

/-!
# Verification of `mpris-client-async`

A shallow embedding, in Lean 4, of the core of the `mpris-client-async`
repository: the enum/string conversions (`src/player/enums.rs`), the typed
property and signal descriptors (`src/player/properties.rs`,
`src/player/signals.rs`), and the three stream adapters of
`src/player/streams.rs` — `ParsedPropertyStream`, `ParsedSignalStream` and the
position estimator `PositionStream`.

Modelling conventions:
* `Duration` values and `Instant` timestamps are modelled as natural numbers of
  microseconds (`Duration::from_micros` / `as_micros`; `Duration` is
  non-negative and the code works at microsecond granularity).
* `f64` rate values are modelled as rationals.  Every concrete rate appearing
  in the claims (`0`, `0.5`, `1.0`, `2.0`) and every concrete product computed
  here is a dyadic number far inside the range where `f64` arithmetic is
  exact, so the rational model computes exactly what the `f64` code computes
  on these inputs.
* The Rust cast `as u64` applied to a non-negative `f64` truncates toward zero
  and saturates at `u64::MAX`; this is `min (Int.toNat ⌊x⌋) u64Max` below
  (for negative inputs both the Rust cast and `Int.toNat ∘ Int.floor` clamp
  to `0`).
* A single `poll_next` pass reads `Instant::now()` several times; the spans
  between those reads within one pass are not observable at the claims'
  granularity, so one `now : Nat` parameter stands for all reads of a pass.
* `Poll<Option<Item>>` is modelled by `PollRes`: `Pending` ↦ `.pending`,
  `Ready(None)` ↦ `.ended`, `Ready(Some(v))` ↦ `.item v`.
-/

namespace MprisClient

/-! ## Enums (`src/player/enums.rs`) -/

/-- `enum Playback { Playing, Paused, Stopped }`, `#[default] Stopped`. -/
inductive Playback
  | Playing
  | Paused
  | Stopped
deriving DecidableEq, Repr

instance : Inhabited Playback := ⟨Playback.Stopped⟩

/-- `enum Loop { None, Track, Playlist }`, `#[default] None`. -/
inductive Loop
  | None
  | Track
  | Playlist
deriving DecidableEq, Repr

instance : Inhabited Loop := ⟨Loop.None⟩

/-- Rust's `str::to_lowercase`.  On every string compared against in this
repository (pure ASCII) Unicode lowercasing is exactly character-wise ASCII
lowercasing. -/
def rustToLower (s : String) : String :=
  String.mk (s.data.map Char.toLower)

/-- `impl From<String> for Playback` (`enums.rs:20-31`): lowercase the wire
string, compare against `"playing"` and `"paused"`, default to `Stopped`. -/
def Playback.fromString (value : String) : Playback :=
  let value := rustToLower value
  if value = "playing" then Playback.Playing
  else if value = "paused" then Playback.Paused
  else Playback.Stopped

/-- `Playback::to_string` (`enums.rs:12-18`). -/
def Playback.toWire : Playback → String
  | Playback.Paused => "Paused"
  | Playback.Playing => "Playing"
  | Playback.Stopped => "Stopped"

/-- `impl From<String> for Loop` (`enums.rs:70-80`). -/
def Loop.fromString (value : String) : Loop :=
  let value := rustToLower value
  if value = "playlist" then Loop.Playlist
  else if value = "track" then Loop.Track
  else Loop.None

/-- `Loop::to_string` (`enums.rs:61-68`). -/
def Loop.toWire : Loop → String
  | Loop.None => "None"
  | Loop.Track => "Track"
  | Loop.Playlist => "Playlist"

/-! ## Numeric model -/

/-- `u64::MAX`. -/
def u64Max : Nat := 2 ^ 64 - 1

/-- The Rust cast `as u64` on a (real-valued) `f64`: truncate toward zero,
clamping to `[0, u64::MAX]`. -/
def f64AsU64 (x : ℚ) : Nat :=
  min (Int.toNat ⌊x⌋) u64Max

/-- The wraparound cast `i64 as u64` used by `Duration::from_micros(value as u64)`
in `Position::into_output` and `Seeked::into_output`. -/
def i64AsU64 (v : Int) : Nat :=
  (v % (2 ^ 64 : Int)).toNat

/-! ## Property and signal descriptors
(`src/player/properties.rs`, `src/player/signals.rs`)

Each descriptor is embedded as its `into_output` conversion
(`ParseAs → Output`) and, for the writable ones, its `from_output`
(`Output → ParseAs`). -/

/-- `Fullscreen::into_output` (`properties.rs:103-105`): identity on `bool`. -/
def Fullscreen.into_output (value : Bool) : Bool := value

/-- `Fullscreen::from_output` (`properties.rs:108-110`): `value.into()`. -/
def Fullscreen.from_output (value : Bool) : Bool := value

/-- `PlaybackStatus::into_output` (`properties.rs:256-258`): `value.into()`
through `From<String> for Playback`. -/
def PlaybackStatus.into_output (value : String) : Playback :=
  Playback.fromString value

/-- `LoopStatus::into_output` (`properties.rs:278-280`): `value.into()`
through `From<String> for Loop`. -/
def LoopStatus.into_output (value : String) : Loop :=
  Loop.fromString value

/-- `LoopStatus::from_output` (`properties.rs:287-289`): `value.to_string()`. -/
def LoopStatus.from_output (value : Loop) : String :=
  value.toWire

/-- `Rate::into_output` (`properties.rs:311-313`): identity on `f64`. -/
def Rate.into_output (value : ℚ) : ℚ := value

/-- `Rate::from_output` (`properties.rs:320-322`): identity on `f64`. -/
def Rate.from_output (value : ℚ) : ℚ := value

/-- `Shuffle::into_output` (`properties.rs:408-410`): identity on `bool`. -/
def Shuffle.into_output (value : Bool) : Bool := value

/-- `Shuffle::from_output` (`properties.rs:417-419`): identity on `bool`. -/
def Shuffle.from_output (value : Bool) : Bool := value

/-- `Volume::into_output` (`properties.rs:435-437`): identity on `f64`. -/
def Volume.into_output (value : ℚ) : ℚ := value

/-- `Volume::from_output` (`properties.rs:444-446`): identity on `f64`. -/
def Volume.from_output (value : ℚ) : ℚ := value

/-- `Position::into_output` (`properties.rs:387-389`):
`Duration::from_micros(value as u64)`. -/
def Position.into_output (value : Int) : Nat :=
  i64AsU64 value

/-- `Seeked::into_output` (`signals.rs:47-49`):
`Duration::from_micros(value as u64)`. -/
def Seeked.into_output (value : Int) : Nat :=
  i64AsU64 value

/-! ## Poll results -/

/-- `Poll<Option<α>>`: `Pending`, `Ready(None)` (end of stream), or
`Ready(Some a)` (an item). -/
inductive PollRes (α : Type)
  | pending
  | ended
  | item (a : α)
deriving DecidableEq, Repr

/-! ## `ParsedPropertyStream` (`streams.rs:128-200`)

The adapter keeps `pending : Option<Pin<Box<dyn Future<...>>>>`.  When the raw
`PropertyStream` yields a changed property, a future fetching and converting
the raw value is stored in `pending` and the poll returns `Pending`; the next
poll polls that future.  A stored future is modelled by the `Except` outcome
its `get_raw`/`try_into` body eventually produces (the D-Bus round trip is
modelled as resolving within a single poll) plus a `completed` flag: an
`async` block polled again after it returned `Ready` panics, which the step
function reports as `Except.error PanicE.panic`. -/

deriving instance DecidableEq for Except

/-- The stored `pending` future of a `ParsedPropertyStream`: its eventual
result (`Ok(ParseAs)` or a `zbus::Error`, collapsed to `Unit`) and whether it
has already returned `Ready`. -/
structure PendingFut (π : Type) where
  result : Except Unit π
  completed : Bool
deriving DecidableEq, Repr

/-- A Rust panic (an `async` block resumed after completion). -/
inductive PanicE
  | panic
deriving DecidableEq, Repr

/-- One `ParsedPropertyStream::poll_next` pass (`streams.rs:162-199`),
parameterized by the descriptor's `into_output` and by the outcome `rawEv` a
poll of the raw `PropertyStream` would produce this pass.  Returns the new
`pending` slot and the poll result, or a panic. -/
def parsedPropPoll {π Ω : Type} (into_output : π → Ω)
    (pend : Option (PendingFut π)) (rawEv : PollRes (Except Unit π)) :
    Except PanicE (Option (PendingFut π) × PollRes Ω) :=
  match pend with
  | some fut =>
      -- `if let Some(fut) = this.pending { match fut.poll(cx) { ... } }`
      -- Neither the `Ready(Ok(_))` nor the `Ready(Err(_))` arm clears
      -- `this.pending`, so the completed future stays in the slot.
      if fut.completed then
        Except.error PanicE.panic
      else
        match fut.result with
        | Except.ok r =>
            Except.ok (some { fut with completed := true },
                       PollRes.item (into_output r))
        | Except.error _ =>
            Except.ok (some { fut with completed := true }, PollRes.ended)
  | none =>
      match rawEv with
      | PollRes.pending => Except.ok (none, PollRes.pending)
      | PollRes.ended => Except.ok (none, PollRes.ended)
      | PollRes.item v => Except.ok (some ⟨v, false⟩, PollRes.pending)

/-- Poll a `ParsedPropertyStream` through a list of raw-stream poll outcomes,
collecting the per-poll results; aborts at the first panic. -/
def runParsedProp {π Ω : Type} (into_output : π → Ω)
    (pend : Option (PendingFut π)) :
    List (PollRes (Except Unit π)) →
      Except PanicE (Option (PendingFut π) × List (PollRes Ω))
  | [] => Except.ok (pend, [])
  | ev :: rest =>
      match parsedPropPoll into_output pend ev with
      | Except.error e => Except.error e
      | Except.ok (p1, out) =>
          match runParsedProp into_output p1 rest with
          | Except.error e => Except.error e
          | Except.ok (p2, outs) => Except.ok (p2, out :: outs)

/-! ## `ParsedSignalStream` (`streams.rs:204-255`) -/

/-- One `ParsedSignalStream::poll_next` pass (`streams.rs:236-254`): a message
whose body fails to deserialize ends the stream (`Err(_e) => return
Ready(None)`); otherwise the parsed body is converted by `into_output`.  The
raw item is modelled by the outcome of `body.deserialize_unchecked()`. -/
def parsedSignalPoll {π Ω : Type} (into_output : π → Ω)
    (rawEv : PollRes (Except Unit π)) : PollRes Ω :=
  match rawEv with
  | PollRes.pending => PollRes.pending
  | PollRes.ended => PollRes.ended
  | PollRes.item (Except.error _) => PollRes.ended
  | PollRes.item (Except.ok v) => PollRes.item (into_output v)

/-! ## `PositionStream` (`streams.rs:16-125`) -/

/-- The mutable state of a `PositionStream`: `rate: f64`,
`playback: Playback`, `position: Duration` (µs), `last_tick: Instant` (µs),
and the deadline of the pinned `Sleep` (µs); `sleep_until(d)` completes on any
poll whose `now` is at or past `d`. -/
structure PositionState where
  rate : ℚ
  playback : Playback
  position : Nat
  lastTick : Nat
  sleepUntil : Nat
deriving DecidableEq, Repr

/-- One second, in microseconds. -/
def oneSecond : Nat := 1000000

/-- The integration step shared by the rate, playback and timer branches
(`streams.rs:55`, `:86`, `:114`):
`Duration::from_micros(((position + delta).as_micros() as f64 * rate) as u64)`.
Note the source multiplies the whole sum `position + delta` by the rate. -/
def integratePos (position delta : Nat) (rate : ℚ) : Nat :=
  f64AsU64 (((position + delta : Nat) : ℚ) * rate)

/-- Timer branch (`streams.rs:110-123`): if the `Sleep` has completed,
integrate the elapsed time at the current rate, reset `last_tick`, re-arm the
timer one second from now, and emit; otherwise the whole pass is `Pending`. -/
def pollTimer (s : PositionState) (now : Nat) : PositionState × PollRes Nat :=
  if s.sleepUntil ≤ now then
    let newPosition := integratePos s.position (now - s.lastTick) s.rate
    ({ s with position := newPosition, lastTick := now,
              sleepUntil := now + oneSecond },
     PollRes.item newPosition)
  else
    (s, PollRes.pending)

/-- Seek branch (`streams.rs:96-108`): a `Seeked` value is stored verbatim,
`last_tick` is reset, the timer re-armed, and the value emitted; the end of
the seek feed ends the whole stream. -/
def pollSeek (s : PositionState) (now : Nat) (seekEv : PollRes Nat) :
    PositionState × PollRes Nat :=
  match seekEv with
  | PollRes.pending => pollTimer s now
  | PollRes.ended => (s, PollRes.ended)
  | PollRes.item p =>
      ({ s with position := p, lastTick := now, sleepUntil := now + oneSecond },
       PollRes.item p)

/-- Playback branch (`streams.rs:68-94`): on any playback change the new state
is stored and the timer re-armed; a `{Paused,Stopped} → Playing` transition
resets `last_tick` and emits the unchanged position; `Playing →
{Paused,Stopped}` integrates at the current rate and emits; every other
transition falls through to the seek branch.  The end of the playback feed
ends the whole stream. -/
def pollPlayback (s : PositionState) (now : Nat)
    (playbackEv : PollRes Playback) (seekEv : PollRes Nat) :
    PositionState × PollRes Nat :=
  match playbackEv with
  | PollRes.pending => pollSeek s now seekEv
  | PollRes.ended => (s, PollRes.ended)
  | PollRes.item newPlayback =>
      let oldPlayback := s.playback
      let s1 := { s with playback := newPlayback, sleepUntil := now + oneSecond }
      match oldPlayback, newPlayback with
      | Playback.Paused, Playback.Playing | Playback.Stopped, Playback.Playing =>
          ({ s1 with lastTick := now }, PollRes.item s1.position)
      | Playback.Playing, Playback.Paused | Playback.Playing, Playback.Stopped =>
          let newPosition := integratePos s1.position (now - s1.lastTick) s1.rate
          ({ s1 with position := newPosition, lastTick := now },
           PollRes.item newPosition)
      | _, _ => pollSeek s1 now seekEv

/-- One `PositionStream::poll_next` pass (`streams.rs:39-124`): the rate feed
is consulted first (`streams.rs:44-65`); a new rate is always stored (the old
one saved first), and if the player is Playing the elapsed time is integrated
at the old rate, the timer re-armed and the new position emitted — otherwise
control falls through to the playback branch.  The end of the rate feed ends
the whole stream. -/
def pollNext (s : PositionState) (now : Nat) (rateEv : PollRes ℚ)
    (playbackEv : PollRes Playback) (seekEv : PollRes Nat) :
    PositionState × PollRes Nat :=
  match rateEv with
  | PollRes.pending => pollPlayback s now playbackEv seekEv
  | PollRes.ended => (s, PollRes.ended)
  | PollRes.item newRate =>
      let oldRate := s.rate
      let s1 := { s with rate := newRate }
      if s1.playback = Playback.Playing then
        let newPosition := integratePos s1.position (now - s1.lastTick) oldRate
        ({ s1 with sleepUntil := now + oneSecond, lastTick := now,
                   position := newPosition },
         PollRes.item newPosition)
      else
        pollPlayback s1 now playbackEv seekEv

/-- The inputs visible to one `poll_next` pass: the current instant and the
outcome polling each feed would produce. -/
structure PollInput where
  now : Nat
  rateEv : PollRes ℚ
  playbackEv : PollRes Playback
  seekEv : PollRes Nat
deriving Repr

/-- Drive a `PositionStream` through a list of poll passes, collecting each
pass's result. -/
def runPolls (s : PositionState) :
    List PollInput → PositionState × List (PollRes Nat)
  | [] => (s, [])
  | i :: rest =>
      let r1 := pollNext s i.now i.rateEv i.playbackEv i.seekEv
      let r2 := runPolls r1.1 rest
      (r2.1, r1.2 :: r2.2)

/-- A playback transition that the playback branch emits on
(`streams.rs:79-92`): entering or leaving `Playing`. -/
def playbackEmits : Playback → Playback → Bool
  | Playback.Paused, Playback.Playing | Playback.Stopped, Playback.Playing => true
  | Playback.Playing, Playback.Paused | Playback.Playing, Playback.Stopped => true
  | _, _ => false

/-- The bootstrap state of the spec's scenarios: rate `1.0`, `Playing`,
position `0`, with the timer armed one second after the (time-zero) start. -/
def bootstrapPlaying : PositionState :=
  ⟨1, Playback.Playing, 0, 0, oneSecond⟩

/-! ## Evaluation lemmas -/

theorem integratePos_zero_rate (position delta : Nat) :
    integratePos position delta 0 = 0 := by
  simp [integratePos, f64AsU64]

theorem integratePos_0_3s_1 : integratePos 0 3000000 1 = 3000000 := by
  norm_num [integratePos, f64AsU64, u64Max]; omega

theorem integratePos_3s_1s_2 : integratePos 3000000 1000000 2 = 8000000 := by
  norm_num [integratePos, f64AsU64, u64Max]; omega

theorem integratePos_32s_1s_1 : integratePos 32000000 1000000 1 = 33000000 := by
  norm_num [integratePos, f64AsU64, u64Max]; omega

theorem integratePos_10s_1s_half :
    integratePos 10000000 1000000 (2 : ℚ)⁻¹ = 5500000 := by
  norm_num [integratePos, f64AsU64, u64Max]; omega

theorem integratePos_0_1s_1 : integratePos 0 1000000 1 = 1000000 := by
  norm_num [integratePos, f64AsU64, u64Max]; omega

theorem integratePos_0_600ms_1 : integratePos 0 600000 1 = 600000 := by
  norm_num [integratePos, f64AsU64, u64Max]; omega

/-! ## Claims -/

/-- **C1** — The claim says every integration step computes
`position + elapsed * rate` (old rate at a rate-change boundary), and that in
Scenario B (bootstrap rate `1.0`, Playing, position `0`; rate changes to
`2.0` after 3 s; a further 1 s later the timer fires) the timer fire emits
5 s.  The code instead computes `(position + elapsed) * rate`
(`streams.rs:55,86,114`), so the timer fire of Scenario B emits
`(3 s + 1 s) * 2.0 = 8 s`, not `3 s + 1 s * 2.0 = 5 s`. -/
theorem scenarioB_emits_eight_seconds :
    (runPolls bootstrapPlaying
        [⟨3000000, PollRes.item 2, PollRes.pending, PollRes.pending⟩,
         ⟨4000000, PollRes.pending, PollRes.pending, PollRes.pending⟩]).2
      = [PollRes.item 3000000, PollRes.item 8000000] ∧
    (runPolls bootstrapPlaying
        [⟨3000000, PollRes.item 2, PollRes.pending, PollRes.pending⟩,
         ⟨4000000, PollRes.pending, PollRes.pending, PollRes.pending⟩]).2
      ≠ [PollRes.item 3000000, PollRes.item 5000000] := by
  constructor <;>
    simp [runPolls, pollNext, pollPlayback, pollSeek, pollTimer,
          bootstrapPlaying, oneSecond, integratePos_0_3s_1, integratePos_3s_1s_2]

/-- **C3** — The claim says that while the stored playback state is Paused or
Stopped the position is frozen and timer fires emit nothing.  The timer branch
(`streams.rs:110-123`) never checks the playback state: one second after
pausing at 32 s (rate `1.0`) the timer fire integrates the elapsed second and
emits 33 s, and the stored position advances. -/
theorem paused_tick_emits_and_advances :
    pollNext ⟨1, Playback.Paused, 32000000, 0, oneSecond⟩ 1000000
        PollRes.pending PollRes.pending PollRes.pending
      = (⟨1, Playback.Paused, 33000000, 1000000, 2000000⟩,
         PollRes.item 33000000) ∧
    (33000000 : Nat) ≠ 32000000 := by
  constructor
  · simp [pollNext, pollPlayback, pollSeek, pollTimer, oneSecond,
          integratePos_32s_1s_1]
  · omega

/-- **C4** — The claim says the stored position is non-decreasing across any
span with `playback == Playing` and positive effective rates.  Because every
integration multiplies the whole of `position + elapsed` by the rate
(`streams.rs:114`), a timer fire at rate `0.5` while Playing drops the stored
position from 10 s to 5.5 s. -/
theorem playing_position_decreases_at_half_rate :
    pollNext ⟨1 / 2, Playback.Playing, 10000000, 0, oneSecond⟩ 1000000
        PollRes.pending PollRes.pending PollRes.pending
      = (⟨1 / 2, Playback.Playing, 5500000, 1000000, 2000000⟩,
         PollRes.item 5500000) ∧
    (5500000 : Nat) < 10000000 ∧
    (0 : ℚ) < 1 / 2 := by
  refine ⟨?_, by omega, by norm_num⟩
  simp [pollNext, pollPlayback, pollSeek, pollTimer, oneSecond,
        integratePos_10s_1s_half]

/-- **C5** (counterexample) — The claim says a reported rate of `0` is never
stored or integrated verbatim, with a fallback to the last non-zero rate.  In
the code the rate branch stores the new rate unconditionally
(`streams.rs:49-50`).  From the bootstrap state, a rate report of `0` at 1 s
is stored verbatim, and the timer fire one second later multiplies by the
stored `0`, emitting position `0` — not the `2000000` µs that integrating at
the last non-zero rate `1.0` would produce. -/
theorem zero_rate_stored_verbatim_cex :
    (runPolls bootstrapPlaying
        [⟨1000000, PollRes.item 0, PollRes.pending, PollRes.pending⟩,
         ⟨2000000, PollRes.pending, PollRes.pending, PollRes.pending⟩]).1.rate
      = 0 ∧
    (runPolls bootstrapPlaying
        [⟨1000000, PollRes.item 0, PollRes.pending, PollRes.pending⟩,
         ⟨2000000, PollRes.pending, PollRes.pending, PollRes.pending⟩]).2
      = [PollRes.item 1000000, PollRes.item 0] := by
  constructor <;>
    simp [runPolls, pollNext, pollPlayback, pollSeek, pollTimer,
          bootstrapPlaying, oneSecond, integratePos_0_1s_1,
          integratePos_zero_rate]

/-- **C5** (amended) — If the rate feed reports `0`, the estimator stores the
`0` verbatim — whatever the other feeds deliver in the same pass — and every
integration at the stored rate `0` then truncates the position to `0`; there
is no fallback to the last non-zero rate. -/
theorem zero_rate_stored_verbatim :
    (∀ (s : PositionState) (now : Nat) (playbackEv : PollRes Playback)
        (seekEv : PollRes Nat),
        ((pollNext s now (PollRes.item 0) playbackEv seekEv).1).rate = 0) ∧
    (∀ position delta : Nat, integratePos position delta 0 = 0) := by
  refine ⟨?_, integratePos_zero_rate⟩
  intro s now playbackEv seekEv
  rcases playbackEv with _ | _ | newPlayback <;>
    rcases seekEv with _ | _ | p <;>
      simp only [pollNext, pollPlayback, pollSeek, pollTimer] <;>
        rcases hpb : s.playback with _ | _ | _ <;>
          simp [hpb] <;>
            first
            | rfl
            | (rcases newPlayback with _ | _ | _ <;> simp <;> split <;> simp)
            | (split <;> simp)

/-- **C6** (counterexample) — The claim says that when several sources are
ready in one pass, the highest-priority ready source *alone* determines that
pass's emission.  With the player Paused, a ready rate item `2.0` (the
highest-priority ready source) yields no emission: the value emitted comes
from the lower-priority seek feed when it is ready (first conjunct), and with
the seek feed pending the very same pass is `Pending` (second conjunct), so
the rate source alone does not determine the emission. -/
theorem priority_emission_from_lower_source_cex :
    pollNext ⟨1, Playback.Paused, 0, 0, oneSecond⟩ 500000
        (PollRes.item 2) PollRes.pending (PollRes.item 30000000)
      = (⟨2, Playback.Paused, 30000000, 500000, 1500000⟩,
         PollRes.item 30000000) ∧
    pollNext ⟨1, Playback.Paused, 0, 0, oneSecond⟩ 500000
        (PollRes.item 2) PollRes.pending PollRes.pending
      = (⟨2, Playback.Paused, 0, 0, oneSecond⟩, PollRes.pending) := by
  constructor <;>
    simp [pollNext, pollPlayback, pollSeek, pollTimer, oneSecond]

/-- **C6** (amended) — On every poll the estimator consults its sources in
the fixed order rate feed, playback feed, seek feed, timer, and the first
consulted source whose transition rule emits determines the pass's emission,
with lower-priority sources left untouched; a rate item while not Playing and
a playback change that neither enters nor leaves Playing update the state
without emitting and consultation falls through to the lower-priority
sources.  Simultaneous readiness is therefore resolved deterministically by
this fixed order, never by arrival timestamp. -/
theorem poll_priority_cascade :
    (∀ (s : PositionState) (now : Nat) (r : ℚ) (playbackEv : PollRes Playback)
        (seekEv : PollRes Nat), s.playback = Playback.Playing →
        pollNext s now (PollRes.item r) playbackEv seekEv
          = ({ s with
                rate := r,
                position := integratePos s.position (now - s.lastTick) s.rate,
                lastTick := now,
                sleepUntil := now + oneSecond },
             PollRes.item (integratePos s.position (now - s.lastTick) s.rate))) ∧
    (∀ (s : PositionState) (now : Nat) (r : ℚ) (playbackEv : PollRes Playback)
        (seekEv : PollRes Nat), s.playback ≠ Playback.Playing →
        pollNext s now (PollRes.item r) playbackEv seekEv
          = pollNext { s with rate := r } now PollRes.pending playbackEv seekEv) ∧
    (∀ (s : PositionState) (now : Nat) (p : Playback) (seekEv : PollRes Nat),
        playbackEmits s.playback p = true →
        pollNext s now PollRes.pending (PollRes.item p) seekEv
          = pollNext s now PollRes.pending (PollRes.item p) PollRes.pending) ∧
    (∀ (s : PositionState) (now : Nat) (p : Playback) (seekEv : PollRes Nat),
        playbackEmits s.playback p = false →
        pollNext s now PollRes.pending (PollRes.item p) seekEv
          = pollNext { s with playback := p, sleepUntil := now + oneSecond }
              now PollRes.pending PollRes.pending seekEv) ∧
    (∀ (s : PositionState) (now : Nat) (p : Nat),
        pollNext s now PollRes.pending PollRes.pending (PollRes.item p)
          = ({ s with
                position := p,
                lastTick := now,
                sleepUntil := now + oneSecond }, PollRes.item p)) := by
  refine ⟨?_, ?_, ?_, ?_, ?_⟩
  · intro s now r playbackEv seekEv h
    simp [pollNext, h]
  · intro s now r playbackEv seekEv h
    simp [pollNext, h]
  · intro s now p seekEv h
    rcases hpb : s.playback with _ | _ | _ <;> rcases p with _ | _ | _ <;>
      simp_all [pollNext, pollPlayback, playbackEmits]
  · intro s now p seekEv h
    rcases hpb : s.playback with _ | _ | _ <;> rcases p with _ | _ | _ <;>
      simp_all [pollNext, pollPlayback, playbackEmits]
  · intro s now p
    simp [pollNext, pollPlayback, pollSeek]

/-- Witness for `poll_priority_cascade`: the first cascade rule applied to the
bootstrap state with all three feeds ready in the same pass — the rate branch
alone produces the emission. -/
theorem poll_priority_cascade_witness :
    pollNext bootstrapPlaying 1000000 (PollRes.item 2)
        (PollRes.item Playback.Paused) (PollRes.item 7)
      = ({ bootstrapPlaying with
            rate := 2,
            position := integratePos bootstrapPlaying.position
              (1000000 - bootstrapPlaying.lastTick) bootstrapPlaying.rate,
            lastTick := 1000000,
            sleepUntil := 1000000 + oneSecond },
         PollRes.item (integratePos bootstrapPlaying.position
           (1000000 - bootstrapPlaying.lastTick) bootstrapPlaying.rate)) :=
  poll_priority_cascade.1 bootstrapPlaying 1000000 2
    (PollRes.item Playback.Paused) (PollRes.item 7) rfl

/-- **C7** (counterexample) — The claim says the estimator never resumes once
any feed has ended.  `PositionStream` keeps no fused/done flag: after a pass
in which the seek feed reported its end (and the estimator returned
end-of-stream), a later poll re-runs `poll_next` from the top, and a rate item
on that poll produces a further emission. -/
theorem estimator_not_fused_cex :
    (runPolls bootstrapPlaying
        [⟨500000, PollRes.pending, PollRes.pending, PollRes.ended⟩,
         ⟨600000, PollRes.item 2, PollRes.pending, PollRes.pending⟩]).2
      = [PollRes.ended, PollRes.item 600000] := by
  simp [runPolls, pollNext, pollPlayback, pollSeek, pollTimer,
        bootstrapPlaying, oneSecond, integratePos_0_600ms_1]

/-- **C7** (amended) — In any single poll pass the estimator returns
end-of-stream as soon as the first consulted feed among rate, playback and
seek reports its end, whichever feed that is and with the state left
untouched; but the design is not fused: a subsequent poll consults the feeds
afresh and can emit again (see `estimator_not_fused_cex`). -/
theorem estimator_ends_when_feed_ends :
    (∀ (s : PositionState) (now : Nat) (playbackEv : PollRes Playback)
        (seekEv : PollRes Nat),
        pollNext s now PollRes.ended playbackEv seekEv = (s, PollRes.ended)) ∧
    (∀ (s : PositionState) (now : Nat) (seekEv : PollRes Nat),
        pollNext s now PollRes.pending PollRes.ended seekEv
          = (s, PollRes.ended)) ∧
    (∀ (s : PositionState) (now : Nat),
        pollNext s now PollRes.pending PollRes.pending PollRes.ended
          = (s, PollRes.ended)) := by
  refine ⟨?_, ?_, ?_⟩ <;> intros <;>
    simp [pollNext, pollPlayback, pollSeek]

/-- **C2** — The claim says the parsed property feed yields one typed value
per raw notification, in arrival order, covering every item of the raw
stream.  Neither arm of the pending-future match (`streams.rs:170-181`)
clears `this.pending`, so the future that produced the first typed value is
polled again on the following call; an `async` block resumed after completion
panics, so the feed never reaches the second raw notification.  The run below
(`Rate` feed; raw values `1.0` then `2.0`, both parsing successfully) yields
the first typed value and then panics instead of yielding the second.  The
second conjunct is the general fact: once the stored future has completed,
the very next poll is a panic, whatever the raw stream does. -/
theorem parsedProp_loses_second_notification :
    runParsedProp Rate.into_output none
        [PollRes.item (Except.ok (1 : ℚ)), PollRes.pending,
         PollRes.item (Except.ok (2 : ℚ))]
      = Except.error PanicE.panic ∧
    (∀ {π Ω : Type} (into_output : π → Ω) (r : π)
        (rawEv : PollRes (Except Unit π)),
        parsedPropPoll into_output (some ⟨Except.ok r, true⟩) rawEv
          = Except.error PanicE.panic) := by
  refine ⟨rfl, ?_⟩
  intro π Ω into_output r rawEv
  simp [parsedPropPoll]

/-- **C8** — For both parsed feeds a notification that fails to parse or
convert ends the feed there instead of being skipped: a pending property
future resolving to an error makes `ParsedPropertyStream::poll_next` return
end-of-stream (`streams.rs:177-179`), and a signal body that fails to
deserialize makes `ParsedSignalStream::poll_next` return end-of-stream
(`streams.rs:246-249`). -/
theorem parsed_feeds_end_on_parse_error :
    (∀ {π Ω : Type} (into_output : π → Ω) (e : Unit)
        (rawEv : PollRes (Except Unit π)),
        parsedPropPoll into_output (some ⟨Except.error e, false⟩) rawEv
          = Except.ok (some ⟨Except.error e, true⟩, PollRes.ended)) ∧
    (∀ {π Ω : Type} (into_output : π → Ω) (e : Unit),
        parsedSignalPoll into_output (PollRes.item (Except.error e))
          = PollRes.ended) := by
  constructor
  · intro π Ω into_output e rawEv
    simp [parsedPropPoll]
  · intro π Ω into_output e
    simp [parsedSignalPoll]

/-- **C9** — For every writable field descriptor (`Fullscreen`, `LoopStatus`,
`Rate`, `Shuffle`, `Volume`) and every value of its output type, serializing
with `from_output` and re-parsing with `into_output` is the identity. -/
theorem writable_roundtrip :
    (∀ v : Bool, Fullscreen.into_output (Fullscreen.from_output v) = v) ∧
    (∀ l : Loop, LoopStatus.into_output (LoopStatus.from_output l) = l) ∧
    (∀ q : ℚ, Rate.into_output (Rate.from_output q) = q) ∧
    (∀ v : Bool, Shuffle.into_output (Shuffle.from_output v) = v) ∧
    (∀ q : ℚ, Volume.into_output (Volume.from_output q) = q) := by
  refine ⟨fun v => rfl, ?_, fun q => rfl, fun v => rfl, fun q => rfl⟩
  intro l
  cases l <;> decide

/-- **C10** — Converting a wire `PlaybackStatus` string is total and never
errors: a string equal to `"playing"`/`"paused"` after lowercasing maps to
`Playing`/`Paused`, and every other string maps to the default `Stopped`. -/
theorem playback_parse_total :
    (∀ s : String, rustToLower s = "playing" →
        PlaybackStatus.into_output s = Playback.Playing) ∧
    (∀ s : String, rustToLower s = "paused" →
        PlaybackStatus.into_output s = Playback.Paused) ∧
    (∀ s : String, rustToLower s ≠ "playing" → rustToLower s ≠ "paused" →
        PlaybackStatus.into_output s = Playback.Stopped) := by
  refine ⟨?_, ?_, ?_⟩
  · intro s h
    simp [PlaybackStatus.into_output, Playback.fromString, h]
  · intro s h
    simp [PlaybackStatus.into_output, Playback.fromString, h]
  · intro s h1 h2
    simp [PlaybackStatus.into_output, Playback.fromString, h1, h2]

/-- Witness for `playback_parse_total`: one concrete string per case,
including mixed case and an unexpected value. -/
theorem playback_parse_total_witness :
    PlaybackStatus.into_output "PLAYING" = Playback.Playing ∧
    PlaybackStatus.into_output "pAuSeD" = Playback.Paused ∧
    PlaybackStatus.into_output "NowPlaying???" = Playback.Stopped :=
  ⟨playback_parse_total.1 "PLAYING" (by decide),
   playback_parse_total.2.1 "pAuSeD" (by decide),
   playback_parse_total.2.2 "NowPlaying???" (by decide) (by decide)⟩

end MprisClient
